import Mathlib

/-!
Verification of the CMS analytics pipeline (cms_data_fetcher.py,
cms_data_visualizer.py, cms_data_visualizer_simple.py) against its
natural-language specification.

Tables are modelled as a list of column names plus a list of rows; a row is an
association list from column name to cell.  A cell is a string, a rational
number, or null (pandas NaN).  String containment tests model pandas
`Series.str.contains(pattern, case=False, na=False)` for the literal
alternation patterns used by the scripts (none of the practice, city,
specialty, county or address literals contains a regex metacharacter, so the
regex is equivalent to an any-of-substrings test); non-string cells behave as
missing values under the `.str` accessor (na=False gives False).
-/

/-- Cells of a data frame: a string, a number (rational, standing for the
numeric dtypes), or null (NaN). -/
inductive Cell
  | str (s : String)
  | num (q : Rat)
  | null
deriving DecidableEq, Repr

/-- Rows are association lists from column name to cell. -/
abbrev Row := List (String × Cell)

/-- Reading a column of a row; absent bindings behave as NaN. -/
def Row.get (r : Row) (c : String) : Cell := (List.lookup c r).getD Cell.null

/-- Tabular data: column names plus rows. -/
structure Table where
  cols : List String
  rows : List Row
deriving DecidableEq, Repr

/-- Python `str(cell)`: strings unchanged, NaN prints as "nan", numbers print
via their decimal representation (modelled with the rational printer; the
county names matched against this text are alphabetic, so the exact numeric
spelling is immaterial). -/
def Cell.pyStr : Cell → String
  | .str s => s
  | .num q => toString q
  | .null => "nan"

/-- pandas `DataFrame.empty`: true when either axis has length 0. -/
def Table.isEmptyDf (t : Table) : Bool := t.rows.isEmpty || t.cols.isEmpty

/-- The empty data frame `pd.DataFrame()`. -/
def emptyTable : Table := { cols := [], rows := [] }

/-- pandas `df.head(0)`: all columns kept, no rows. -/
def Table.head0 (t : Table) : Table := { cols := t.cols, rows := [] }

/-- Does `pat` occur as a contiguous segment at the head of `l`? -/
def segStartsWith : List Char → List Char → Bool
  | [], _ => true
  | _ :: _, [] => false
  | p :: ps, c :: cs => p == c && segStartsWith ps cs

/-- Does `pat` occur as a contiguous segment anywhere in `l`? -/
def hasSeg (pat : List Char) : List Char → Bool
  | [] => pat.isEmpty
  | c :: cs => segStartsWith pat (c :: cs) || hasSeg pat cs

/-- Upper-cased character content of a string (semantically
`String.toUpper`, written as a character map so it evaluates by `decide`). -/
def upperChars (s : String) : List Char := s.data.map Char.toUpper

/-- Case-insensitive substring containment: models
`Series.str.contains(pat, case=False)` for a literal pattern, and equally
`.str.upper().str.contains(PAT)` for an upper-case literal. -/
def containsCI (hay pat : String) : Bool :=
  hasSeg (upperChars pat) (upperChars hay)

/-- Row-level form of `Series.str.contains('|'.join(pats), case=False,
na=False)`: string cells are tested against each alternative, every other cell
is a missing value and yields False. -/
def cellMatchesAny (c : Cell) (pats : List String) : Bool :=
  match c with
  | .str s => pats.any (fun p => containsCI s p)
  | _ => false

-- Static configuration lists of CMSDataFetcher.__init__ .

/-- The CommunityCare practice-name list (self.community_care_practices). -/
def community_care_practices : List String :=
  ["COMMUNITY CARE", "COMMUNITYCARE", "COMMUNITY CARE PHYSICIANS",
   "CCP", "COMMUNITY CARE FAMILY MEDICINE", "COMMUNITY CARE PEDIATRICS",
   "COMMUNITY CARE INTERNAL MEDICINE", "LATHAM MEDICAL GROUP",
   "CAPITAL REGION FAMILY HEALTH", "FAMILY CARE PHYSICIANS",
   "SCHOOLHOUSE ROAD PEDIATRICS", "ALBANY FAMILY PRACTICE",
   "CAPITAL CARE", "CAPITALCARE", "CAPITAL CARE MEDICAL GROUP",
   "CAPITAL DISTRICT INTERNAL MEDICINE", "CAPITAL DISTRICT RENAL",
   "UROLOGICAL INSTITUTE OF NORTHEASTERN NY", "UROLOGY INSTITUTE",
   "ALBANY GASTROENTEROLOGY", "ALBANY GASTRO", "ALBANY UROLOGY",
   "ALBANY OBSTETRICS & GYNECOLOGY", "ALBANY OB GYN", "ALBANY OB-GYN",
   "UPSTATE INFECTIOUS DISEASES", "UPSTATE NEUROLOGY",
   "NEUROLOGY GROUP OF UPSTATE NY", "NEUROLOGY GROUP",
   "CAPITAL REGION MIDWIFERY", "CAPITAL REGION WOMEN\x27S CARE",
   "WOMEN\x27S CARE", "WOMENS CARE", "CAPITAL CARDIOLOGY",
   "CARDIOLOGY ASSOCIATES OF SCHENECTADY", "CARDIOLOGY ASSOCIATES",
   "Advanced Gastroenterology",
   "Albany Family Medicine",
   "Burnt Hills Pediatrics and Internal Medicine",
   "Capital Healthcare Associates",
   "Capital Region Family Medicine",
   "Capital Region Gastroenterology",
   "Capital Region Women\x27s Care",
   "CapitalCare Charlton Family Medicine",
   "CapitalCare Developmental Pediatrics",
   "CapitalCare Family MedEsthetics",
   "Community Care Physicians",
   "CommunityCarePCP"]

/-- Upstate NY counties (self.upstate_ny_counties). -/
def upstate_ny_counties : List String :=
  ["ALBANY", "SCHENECTADY", "RENSSELAER", "SARATOGA",
   "COLUMBIA", "GREENE", "WARREN", "WASHINGTON",
   "FULTON", "MONTGOMERY", "SCHOHARIE", "DELAWARE"]

/-- NY state code (self.ny_state_code). -/
def ny_state_code : String := "NY"

-- filter_upstate_ny_providers (cms_data_fetcher.py lines 113-154).

/-- Candidate state columns tried in order. -/
def possible_state_cols : List String :=
  ["Rndrng_Prvdr_State_Abrvtn", "Rndrng_Prvdr_State", "State_Abrvtn", "State"]

/-- Candidate county columns tried in order. -/
def possible_county_cols : List String :=
  ["Rndrng_Prvdr_State_FIPS", "Rndrng_Prvdr_County", "County", "County_FIPS"]

/-- First candidate column name present in the table (the for/break loops of
the source; models the shared resolve-a-column-alias idiom). -/
def findCol (cols cands : List String) : Option String :=
  cands.find? (fun c => cols.contains c)

/-- Lambda applied to `ny_providers[county_col].astype(str).str.upper()`: does
the county text contain any upstate county name? -/
def countyText (c : Cell) : Bool :=
  upstate_ny_counties.any (fun county => hasSeg county.data (upperChars (Cell.pyStr c)))

/-- filter_upstate_ny_providers: locate a state column (else return
`df.head(0)` with a warning), keep rows whose state equals "NY", then if a
county column exists keep rows whose county text contains an upstate county
name — unless that leaves nothing, in which case all NY rows are returned. -/
def filter_upstate_ny_providers (df : Table) : Table :=
  match findCol df.cols possible_state_cols with
  | none => df.head0
  | some state_col =>
    let ny_rows := df.rows.filter (fun r => Row.get r state_col == Cell.str ny_state_code)
    match findCol df.cols possible_county_cols with
    | some county_col =>
      let upstate_rows := ny_rows.filter (fun r => countyText (Row.get r county_col))
      if upstate_rows.length > 0 then { cols := df.cols, rows := upstate_rows }
      else { cols := df.cols, rows := ny_rows }
    | none => { cols := df.cols, rows := ny_rows }

-- find_community_care_providers (cms_data_fetcher.py lines 156-224).

/-- Organization-name columns checked against the practice list. -/
def org_name_cols : List String :=
  ["Rndrng_Prvdr_Org_Name", "Org_Name", "Rndrng_Prvdr_Org_Lgl_Name", "Rndrng_Prvdr_Org_DBA_Name"]

/-- Upstate NY cities where CommunityCare operates (local list of
find_community_care_providers). -/
def upstate_cities : List String :=
  ["ALBANY", "LATHAM", "CLIFTON PARK", "DELMAR", "SARATOGA SPRINGS",
   "SCHENECTADY", "NISKAYUNA", "TROY", "EAST GREENBUSH", "SLINGERLANDS",
   "BALLSTON SPA", "MALTA", "GUILDERLAND", "COHOES", "COLONIE",
   "GLENVILLE", "GLENS FALLS", "QUEENSBURY", "BURNT HILLS", "MECHANICVILLE"]

/-- City columns checked. -/
def city_cols : List String := ["Rndrng_Prvdr_City", "City"]

/-- Common CommunityCare specialties (local list of
find_community_care_providers). -/
def common_specialties : List String :=
  ["FAMILY PRACTICE", "INTERNAL MEDICINE", "PEDIATRICS",
   "OBSTETRICS/GYNECOLOGY", "GASTROENTEROLOGY", "UROLOGY",
   "CARDIOLOGY", "NEUROLOGY", "NEPHROLOGY", "INFECTIOUS DISEASE",
   "FAMILY MEDICINE", "GENERAL PRACTICE", "PRIMARY CARE"]

/-- Specialty columns checked. -/
def specialty_cols : List String := ["Rndrng_Prvdr_Type", "Provider_Type", "Specialty"]

/-- Known CommunityCare street-address prefixes. -/
def address_patterns : List String :=
  ["1 PINNACLE", "711 TROY-SCHENECTADY", "2 CHELSEA", "2 PALISADES",
   "1785 WESTERN", "1444 WESTERN", "1201 NOTT", "2546 BALLTOWN",
   "1 TALLOW WOOD", "6 EXECUTIVE PARK", "4 PALISADES", "1 COLUMBIA"]

/-- Address columns checked. -/
def address_cols : List String :=
  ["Rndrng_Prvdr_St1", "Rndrng_Prvdr_St2", "Street1", "Street2"]

/-- Match rule (a): any present organization-name column contains a practice
name (case-insensitive). -/
def orgNameRule (cols : List String) (r : Row) : Bool :=
  org_name_cols.any (fun col =>
    cols.contains col && cellMatchesAny (Row.get r col) community_care_practices)

/-- Match rule (b): the group practice PAC ID column, when present, contains a
practice name. -/
def groupPacRule (cols : List String) (r : Row) : Bool :=
  cols.contains "Rndrng_Prvdr_Grp_Pac_ID" &&
    cellMatchesAny (Row.get r "Rndrng_Prvdr_Grp_Pac_ID") community_care_practices

/-- Match rule (c): for each present city column, provided some row of the
table matches an upstate city (the `city_mask.any()` gate of the source), a
row is matched when its city matches and some present specialty column
matches a common specialty. -/
def citySpecialtyRule (df : Table) (r : Row) : Bool :=
  city_cols.any (fun col =>
    df.cols.contains col &&
      (cellMatchesAny (Row.get r col) upstate_cities &&
        (df.rows.any (fun r2 => cellMatchesAny (Row.get r2 col) upstate_cities) &&
          specialty_cols.any (fun sc =>
            df.cols.contains sc && cellMatchesAny (Row.get r sc) common_specialties))))

/-- Match rule (d): any present street-address column contains a known
CommunityCare address prefix. -/
def addressRule (cols : List String) (r : Row) : Bool :=
  address_cols.any (fun col =>
    cols.contains col && cellMatchesAny (Row.get r col) address_patterns)

/-- The row mask of find_community_care_providers: logical OR of the four
match rules, accumulated in source order. -/
def ccpMask (df : Table) (r : Row) : Bool :=
  orgNameRule df.cols r || groupPacRule df.cols r || citySpecialtyRule df r || addressRule df.cols r

/-- find_community_care_providers: empty input is returned unchanged;
otherwise the rows satisfying the OR-mask are kept. -/
def find_community_care_providers (df : Table) : Table :=
  if df.isEmptyDf then df
  else { cols := df.cols, rows := df.rows.filter (fun r => ccpMask df r) }

-- analyze_provider_metrics (cms_data_fetcher.py lines 226-273).

/-- The fixed canonical-field to alias-list mapping (column_mappings). -/
def column_mappings : List (String × List String) :=
  [("provider_id", ["Rndrng_Prvdr_NPI", "NPI", "Provider_NPI"]),
   ("provider_last_name", ["Rndrng_Prvdr_Last_Org_Name", "Last_Name", "Rndrng_Prvdr_Last_Name"]),
   ("provider_first_name", ["Rndrng_Prvdr_First_Name", "First_Name"]),
   ("provider_middle_initial", ["Rndrng_Prvdr_MI", "MI", "Middle_Initial"]),
   ("provider_credentials", ["Rndrng_Prvdr_Crdntls", "Credentials", "Crdntls"]),
   ("provider_gender", ["Rndrng_Prvdr_Gndr", "Gender", "Gndr"]),
   ("provider_entity_code", ["Rndrng_Prvdr_Ent_Cd", "Entity_Code", "Ent_Cd"]),
   ("provider_entity_description", ["Rndrng_Prvdr_Ent_Desc", "Entity_Description", "Ent_Desc"]),
   ("provider_type", ["Rndrng_Prvdr_Type", "Provider_Type", "Specialty"]),
   ("total_beneficiaries", ["Tot_Benes", "Beneficiaries", "Bene_Cnt"]),
   ("total_services", ["Tot_Srvcs", "Services", "Srvc_Cnt"]),
   ("total_bene_day_services", ["Tot_Bene_Day_Srvcs", "Bene_Day_Srvcs"]),
   ("avg_submitted_charge", ["Avg_Sbmtd_Chrg", "Submitted_Charge", "Sbmtd_Chrg"]),
   ("avg_medicare_allowed_amount", ["Avg_Mdcr_Alowd_Amt", "Medicare_Allowed", "Alowd_Amt"]),
   ("avg_medicare_payment_amount", ["Avg_Mdcr_Pymt_Amt", "Medicare_Payment", "Pymt_Amt"]),
   ("avg_medicare_standardized_amount", ["Avg_Mdcr_Stdzd_Amt", "Medicare_Standardized", "Stdzd_Amt"])]

/-- The (source column, canonical name) pairs found by the nested loop of
analyze_provider_metrics: per canonical field, the first alias present in the
table (the inner break). -/
def availableMappedCols (cols : List String) : List (String × String) :=
  column_mappings.filterMap (fun m =>
    (m.2.find? (fun c => cols.contains c)).map (fun c => (c, m.1)))

/-- analyze_provider_metrics: empty input gives `pd.DataFrame()`; no alias
found at all gives `df.head(0)` (warning); otherwise the selected alias
columns are kept and renamed to their canonical names. -/
def analyze_provider_metrics (df : Table) : Table :=
  if df.isEmptyDf then emptyTable
  else
    let available := availableMappedCols df.cols
    if available.isEmpty then df.head0
    else
      { cols := available.map (fun p => p.2),
        rows := df.rows.map (fun r => available.map (fun p => (p.2, Row.get r p.1))) }

-- get_specialty_distribution (cms_data_fetcher.py lines 275-282).

/-- Distinct non-null values of a column in first-occurrence order, each with
its number of occurrences, sorted by descending count: pandas
`Series.value_counts()` (which drops NaN; its tie order between equal counts
is not relied on by any theorem below). -/
def valueCounts (rows : List Row) (col : String) : List (Cell × Nat) :=
  let vals := (rows.map (fun r => Row.get r col)).filter (fun c => c ≠ Cell.null)
  let pairs := vals.dedup.map (fun k => (k, (vals.filter (fun v => v = k)).length))
  List.insertionSort (fun a b : Cell × Nat => b.2 ≤ a.2) pairs

/-- get_specialty_distribution: without a provider_type column (or on an empty
frame) the result is `pd.DataFrame()`; otherwise the value counts of
provider_type as a two-column table. -/
def get_specialty_distribution (providers_df : Table) : Table :=
  if ¬ providers_df.cols.contains "provider_type" ∨ providers_df.isEmptyDf then emptyTable
  else
    { cols := ["Specialty", "Count"],
      rows := (valueCounts providers_df.rows "provider_type").map
        (fun p => [("Specialty", p.1), ("Count", Cell.num (p.2 : Rat))]) }

-- analyze_provider_service_data, population selection (lines 405-449).

/-- Broader-approach city list local to analyze_provider_service_data (a
shorter list than the one in find_community_care_providers). -/
def fallback_upstate_cities : List String :=
  ["ALBANY", "LATHAM", "CLIFTON PARK", "DELMAR", "SARATOGA SPRINGS",
   "SCHENECTADY", "NISKAYUNA", "TROY", "EAST GREENBUSH", "SLINGERLANDS"]

/-- Broader-approach specialty list local to analyze_provider_service_data. -/
def fallback_common_specialties : List String :=
  ["FAMILY PRACTICE", "INTERNAL MEDICINE", "PEDIATRICS",
   "OBSTETRICS/GYNECOLOGY", "FAMILY MEDICINE", "GENERAL PRACTICE"]

/-- The NY-filtered frame of analyze_provider_service_data: rows whose state
abbreviation equals "NY" when that column exists, the whole frame (with a
warning) otherwise. -/
def nyStateRows (df : Table) : Table :=
  if df.cols.contains "Rndrng_Prvdr_State_Abrvtn" then
    { cols := df.cols,
      rows := df.rows.filter (fun r =>
        Row.get r "Rndrng_Prvdr_State_Abrvtn" == Cell.str ny_state_code) }
  else df

/-- The community_care_providers population computed by
analyze_provider_service_data before any aggregation: the strict
find_community_care_providers match, broadened — when the strict match has
zero rows — to providers in the fallback city list, narrowed further by the
fallback specialty list when the provider-type column exists; an empty frame
when the city column is missing. -/
def ccPopulation (df : Table) : Table :=
  let ny := nyStateRows df
  let cc := find_community_care_providers ny
  if cc.rows.length = 0 then
    if ny.cols.contains "Rndrng_Prvdr_City" then
      let upstate := Table.mk ny.cols (ny.rows.filter (fun r =>
        cellMatchesAny (Row.get r "Rndrng_Prvdr_City") fallback_upstate_cities))
      if upstate.cols.contains "Rndrng_Prvdr_Type" then
        Table.mk upstate.cols (upstate.rows.filter (fun r =>
          cellMatchesAny (Row.get r "Rndrng_Prvdr_Type") fallback_common_specialties))
      else upstate
    else ny.head0
  else cc

-- get_payment_comparison (cms_data_fetcher.py lines 497-560).

/-- Numeric content of a cell, if any. -/
def cellNum : Cell → Option Rat
  | .num q => some q
  | _ => none

/-- Total order on cells used to model how pandas orders group keys: null
first, then numbers by value, then strings lexicographically (the scripts
only ever group homogeneous string or numeric keys, so only the within-kind
order is ever exercised). -/
def cellLe : Cell → Cell → Bool
  | .null, _ => true
  | .num _, .null => false
  | .num a, .num b => decide (a ≤ b)
  | .num _, .str _ => true
  | .str _, .null => false
  | .str _, .num _ => false
  | .str a, .str b => decide (a ≤ b)

/-- Strict part of cellLe. -/
def cellLt (a b : Cell) : Bool := cellLe a b && ! cellLe b a

/-- cellLe as a relation, for the sorting lemmas. -/
def cellLeR (a b : Cell) : Prop := cellLe a b = true

instance : DecidableRel cellLeR := fun a b => inferInstanceAs (Decidable (cellLe a b = true))

/-- pandas `df.groupby(col)` group keys: the distinct non-null values of the
column, in ascending order (groupby sorts its keys). -/
def groupKeys (rows : List Row) (col : String) : List Cell :=
  List.insertionSort cellLeR
    ((rows.map (fun r => Row.get r col)).filter (fun c => c ≠ Cell.null)).dedup

/-- Sum of the numeric values of a column over rows: pandas `sum()`, which
skips NaN and returns 0 on an all-missing selection. -/
def sumNum (rows : List Row) (col : String) : Rat :=
  ((rows.map (fun r => Row.get r col)).filterMap cellNum).sum

/-- Mean of the numeric values of a column over rows: pandas `mean()`, which
skips NaN; NaN (null) on an all-missing selection. -/
def meanNum (rows : List Row) (col : String) : Cell :=
  let vals := (rows.map (fun r => Row.get r col)).filterMap cellNum
  if vals.isEmpty then Cell.null else Cell.num (vals.sum / (vals.length : Rat))

/-- `df.groupby(keyCol)[valCol].sum()`: per ascending non-null key, the summed
value column. -/
def groupSum (rows : List Row) (keyCol valCol : String) : List (Cell × Rat) :=
  (groupKeys rows keyCol).map (fun k =>
    (k, sumNum (rows.filter (fun r => Row.get r keyCol == k)) valCol))

/-- Descending-by-value relation on (key, sum) pairs, as used by
`Series.nlargest`. -/
def volGe (a b : Cell × Rat) : Prop := b.2 ≤ a.2

instance : DecidableRel volGe := fun a b => inferInstanceAs (Decidable (b.2 ≤ a.2))

instance : IsTotal (Cell × Rat) volGe := ⟨fun a b => le_total b.2 a.2⟩

instance : IsTrans (Cell × Rat) volGe := ⟨fun _ _ _ h1 h2 => le_trans h2 h1⟩

/-- `Series.nlargest(n).index.tolist()` on a (key, value) series: keys of the
n largest values, descending, ties kept in series order (keep='first';
insertion sort is stable). -/
def nlargestKeys (n : Nat) (pairs : List (Cell × Rat)) : List Cell :=
  ((List.insertionSort volGe pairs).take n).map (fun p => p.1)

/-- The per-code summed service volumes of a table:
`df.groupby('HCPCS_Cd')['Tot_Srvcs'].sum()`. -/
def ccVolumes (df : Table) : List (Cell × Rat) :=
  groupSum df.rows "HCPCS_Cd" "Tot_Srvcs"

/-- The top-20 service codes by summed volume selected by
get_payment_comparison. -/
def topServiceCodes (df : Table) : List Cell :=
  nlargestKeys 20 (ccVolumes df)

/-- Lexicographic order on (code, description) group keys. -/
def pairKeyLe (a b : Cell × Cell) : Prop :=
  cellLt a.1 b.1 = true ∨ (a.1 = b.1 ∧ cellLe a.2 b.2 = true)

instance : DecidableRel pairKeyLe := fun _ _ => inferInstanceAs (Decidable (_ ∨ _))

/-- Group keys of `groupby(['HCPCS_Cd', 'HCPCS_Desc'])`: distinct pairs with
both components non-null (groupby drops rows with a missing key), ascending.
-/
def pairKeys (rows : List Row) : List (Cell × Cell) :=
  List.insertionSort pairKeyLe
    ((rows.filterMap (fun r =>
      let c := Row.get r "HCPCS_Cd"
      let d := Row.get r "HCPCS_Desc"
      if c ≠ Cell.null ∧ d ≠ Cell.null then some (c, d) else none)).dedup)

/-- cc_payments: per (code, description) group of the top-services-filtered
CommunityCare rows, mean allowed amount, mean payment amount and summed
service count, with the group key as leading columns (reset_index). -/
def ccPaymentsRows (ccf : List Row) : List Row :=
  (pairKeys ccf).map (fun k =>
    let grp := ccf.filter (fun r =>
      Row.get r "HCPCS_Cd" == k.1 && Row.get r "HCPCS_Desc" == k.2)
    [("HCPCS_Cd", k.1), ("HCPCS_Desc", k.2),
     ("Avg_Mdcr_Alowd_Amt", meanNum grp "Avg_Mdcr_Alowd_Amt"),
     ("Avg_Mdcr_Pymt_Amt", meanNum grp "Avg_Mdcr_Pymt_Amt"),
     ("Tot_Srvcs", Cell.num (sumNum grp "Tot_Srvcs"))])

/-- ny_payments: per HCPCS code of the top-services-filtered NY rows, mean
allowed and payment amounts. -/
def nyPaymentsRows (nyf : List Row) : List Row :=
  (groupKeys nyf "HCPCS_Cd").map (fun k =>
    let grp := nyf.filter (fun r => Row.get r "HCPCS_Cd" == k)
    [("HCPCS_Cd", k),
     ("Avg_Mdcr_Alowd_Amt", meanNum grp "Avg_Mdcr_Alowd_Amt"),
     ("Avg_Mdcr_Pymt_Amt", meanNum grp "Avg_Mdcr_Pymt_Amt")])

/-- Inner merge of cc_payments with ny_payments on HCPCS_Cd, with ('_CC',
'_NY') suffixes on the overlapping payment columns (left columns first, as
pandas merge orders them). -/
def mergeOnCode (left right : List Row) : List Row :=
  left.flatMap (fun l =>
    (right.filter (fun r => Row.get r "HCPCS_Cd" == Row.get l "HCPCS_Cd")).map (fun r =>
      [("HCPCS_Cd", Row.get l "HCPCS_Cd"), ("HCPCS_Desc", Row.get l "HCPCS_Desc"),
       ("Avg_Mdcr_Alowd_Amt_CC", Row.get l "Avg_Mdcr_Alowd_Amt"),
       ("Avg_Mdcr_Pymt_Amt_CC", Row.get l "Avg_Mdcr_Pymt_Amt"),
       ("Tot_Srvcs", Row.get l "Tot_Srvcs"),
       ("Avg_Mdcr_Alowd_Amt_NY", Row.get r "Avg_Mdcr_Alowd_Amt"),
       ("Avg_Mdcr_Pymt_Amt_NY", Row.get r "Avg_Mdcr_Pymt_Amt")]))

/-- Vectorized subtraction of two cells: NaN-propagating. -/
def cellSub : Cell → Cell → Cell
  | .num a, .num b => .num (a - b)
  | _, _ => .null

/-- Vectorized `(d / n) * 100`: null stands for the non-finite results (NaN
propagation, and inf/NaN on a zero denominator — pandas does not raise here).
-/
def cellPctOf (d n : Cell) : Cell :=
  match d, n with
  | .num a, .num b => if b = 0 then .null else .num (a / b * 100)
  | _, _ => .null

/-- The four difference columns appended by get_payment_comparison, in
assignment order. -/
def addDiffCols (r : Row) : Row :=
  let allowedDiff := cellSub (Row.get r "Avg_Mdcr_Alowd_Amt_CC") (Row.get r "Avg_Mdcr_Alowd_Amt_NY")
  let paymentDiff := cellSub (Row.get r "Avg_Mdcr_Pymt_Amt_CC") (Row.get r "Avg_Mdcr_Pymt_Amt_NY")
  r ++ [("Allowed_Diff", allowedDiff),
        ("Allowed_Pct_Diff", cellPctOf allowedDiff (Row.get r "Avg_Mdcr_Alowd_Amt_NY")),
        ("Payment_Diff", paymentDiff),
        ("Payment_Pct_Diff", cellPctOf paymentDiff (Row.get r "Avg_Mdcr_Pymt_Amt_NY"))]

/-- The output-column rename dictionary of get_payment_comparison. -/
def paymentRenames : List (String × String) :=
  [("HCPCS_Cd", "HCPCS Code"), ("HCPCS_Desc", "Description"),
   ("Avg_Mdcr_Alowd_Amt_CC", "CC Allowed Amt"), ("Avg_Mdcr_Alowd_Amt_NY", "NY Allowed Amt"),
   ("Avg_Mdcr_Pymt_Amt_CC", "CC Payment Amt"), ("Avg_Mdcr_Pymt_Amt_NY", "NY Payment Amt"),
   ("Tot_Srvcs", "Total Services"),
   ("Allowed_Diff", "Allowed Difference"), ("Allowed_Pct_Diff", "Allowed % Difference"),
   ("Payment_Diff", "Payment Difference"), ("Payment_Pct_Diff", "Payment % Difference")]

/-- Renaming the bindings of a row through a rename dictionary. -/
def renameRow (ren : List (String × String)) (r : Row) : Row :=
  r.map (fun p => ((List.lookup p.1 ren).getD p.1, p.2))

/-- Sort key for `sort_values('Total Services', ascending=False)`: the cell is
always a groupby sum here, hence numeric (0 as a degenerate default). -/
def totalServicesKey (r : Row) : Rat :=
  match Row.get r "Total Services" with
  | .num q => q
  | _ => 0

/-- Descending order on rows by Total Services. -/
def rowVolGe (a b : Row) : Prop := totalServicesKey b ≤ totalServicesKey a

instance : DecidableRel rowVolGe := fun a b =>
  inferInstanceAs (Decidable (totalServicesKey b ≤ totalServicesKey a))

instance : IsTotal Row rowVolGe := ⟨fun a b => le_total (totalServicesKey b) (totalServicesKey a)⟩

instance : IsTrans Row rowVolGe := ⟨fun _ _ _ h1 h2 => le_trans h2 h1⟩

/-- Required columns checked up front by get_payment_comparison. -/
def required_payment_cols : List String :=
  ["HCPCS_Cd", "Avg_Mdcr_Alowd_Amt", "Avg_Mdcr_Pymt_Amt"]

/-- Output columns of get_payment_comparison (merge order plus the four
appended difference columns, renamed). -/
def paymentComparisonCols : List String :=
  ["HCPCS Code", "Description", "CC Allowed Amt", "CC Payment Amt", "Total Services",
   "NY Allowed Amt", "NY Payment Amt", "Allowed Difference", "Allowed % Difference",
   "Payment Difference", "Payment % Difference"]

/-- The `df[df['HCPCS_Cd'].isin(top_services)]` restriction. -/
def topFilteredRows (top_services : List Cell) (rows : List Row) : List Row :=
  rows.filter (fun r => top_services.contains (Row.get r "HCPCS_Cd"))

/-- Main path of get_payment_comparison: both frames restricted to the top-20
codes by summed CommunityCare volume, per-group means on both sides,
inner-merged on code, difference columns appended, renamed, and sorted by
Total Services descending. -/
def paymentComparisonMain (community_care_df ny_providers_df : Table) : Table :=
  { cols := paymentComparisonCols,
    rows := List.insertionSort rowVolGe
      ((mergeOnCode
        (ccPaymentsRows
          (topFilteredRows (topServiceCodes community_care_df) community_care_df.rows))
        (nyPaymentsRows
          (topFilteredRows (topServiceCodes community_care_df) ny_providers_df.rows))).map
        (fun r => renameRow paymentRenames (addDiffCols r))) }

/-- get_payment_comparison: empty inputs or missing required columns give an
empty frame; the remaining column requirements are those whose absence makes
the groupby/agg calls raise KeyError (modelled as `none`): HCPCS_Desc and
Tot_Srvcs on the CommunityCare side (with Tot_Srvcs absent the top-20 is
taken over value counts but the subsequent agg on Tot_Srvcs raises), and the
code plus both payment columns on the NY side.  Otherwise the main path runs.
-/
def get_payment_comparison (community_care_df ny_providers_df : Table) : Option Table :=
  if community_care_df.isEmptyDf || ny_providers_df.isEmptyDf then some emptyTable
  else if ¬ required_payment_cols.all (fun c => community_care_df.cols.contains c) then
    some emptyTable
  else if ¬ (community_care_df.cols.contains "Tot_Srvcs"
      && community_care_df.cols.contains "HCPCS_Desc"
      && ny_providers_df.cols.contains "HCPCS_Cd"
      && ny_providers_df.cols.contains "Avg_Mdcr_Alowd_Amt"
      && ny_providers_df.cols.contains "Avg_Mdcr_Pymt_Amt") then none
  else some (paymentComparisonMain community_care_df ny_providers_df)

/-- The HCPCS Code column of a payment-comparison table. -/
def paymentComparisonCodes (t : Table) : List Cell :=
  t.rows.map (fun r => Row.get r "HCPCS Code")

/-- The frame produced by get_payment_comparison, the empty frame standing in
for the KeyError paths (which produce no output at all). -/
def paymentComparisonResult (community_care_df ny_providers_df : Table) : Table :=
  (get_payment_comparison community_care_df ny_providers_df).getD emptyTable

-- download_file (cms_data_fetcher.py lines 71-89) and save_results (669-691).

/-- download_file over an explicit model of the data directory (the list of
files present): if the local file already exists its path is returned and
nothing else happens; otherwise the bytes are fetched from the url and the
file is created.  The Bool records whether a network download occurred. -/
def download_file (data_dir_files : List String) (url local_filename : String) :
    String × List String × Bool :=
  if data_dir_files.contains local_filename then (local_filename, data_dir_files, false)
  else (local_filename, data_dir_files ++ [local_filename], true)

/-- Values of the results dictionary passed to save_results: summary tables,
or a non-DataFrame value (the provider path stores the payment_stats dict). -/
inductive ResultVal
  | table (t : Table)
  | other
deriving DecidableEq, Repr

/-- CSV cell text of `DataFrame.to_csv`: strings verbatim (the cells written
here need no quoting), numbers printed, missing values empty. -/
def csvCell : Cell → String
  | .str s => s
  | .num q => toString q
  | .null => ""

/-- Byte content of `df.to_csv(path, index=False)`: a header row then one line
per row. -/
def toCsv (t : Table) : String :=
  String.intercalate "," t.cols ++ "\n" ++
    String.intercalate "\n" (t.rows.map (fun r =>
      String.intercalate "," (t.cols.map (fun c => csvCell (Row.get r c)))))

/-- The one-row analysis_summary frame: a timestamp, which dataset shape ran,
and a `<name>_count` row count for every DataFrame value of the results
dictionary (empty ones included), in insertion order. -/
def analysisSummaryTable (results : List (String × ResultVal)) (now : String) : Table :=
  Table.mk
    (["timestamp", "dataset"] ++ results.filterMap (fun p =>
      match p.2 with
      | .table _ => some (p.1 ++ "_count")
      | .other => none))
    [[("timestamp", Cell.str now),
      ("dataset", Cell.str (if (results.map Prod.fst).contains "top_services"
        then "Provider-Service" else "Provider"))] ++
     results.filterMap (fun p =>
      match p.2 with
      | .table t => some (p.1 ++ "_count", Cell.num (t.rows.length : Rat))
      | .other => none)]

/-- save_results: the files written to the results directory, as (filename,
frame) pairs — one `<name>.csv` per non-empty DataFrame value, then
analysis_summary.csv (`now` is the formatted `pd.Timestamp.now()`). -/
def save_results (results : List (String × ResultVal)) (now : String) :
    List (String × Table) :=
  (results.filterMap (fun p =>
    match p.2 with
    | .table t => if ¬ t.isEmptyDf then some (p.1 ++ ".csv", t) else none
    | .other => none))
  ++ [("analysis_summary.csv", analysisSummaryTable results now)]

-- Chart constructors (cms_data_visualizer.py and cms_data_visualizer_simple.py).

/-- Drawable chart objects.  Chart markup itself is a plotting-library
internal (an explicit non-goal of the specification); a figure is modelled as
its title together with the frame the constructor draws from. -/
inductive Figure
  | plotly (title : String) (source_data : Table)
deriving DecidableEq, Repr

/-- `df.sort_values('Total Services', ascending=False)` on rows, and the
sorted prefix selections `df.nlargest(n, 'Total Services')` /
`.head(n)` below (nlargest keeps first occurrences of ties; insertion sort is
stable). -/
def sortByTotalServicesDesc (rows : List Row) : List Row :=
  List.insertionSort rowVolGe rows

/-- CMSDataVisualizer.create_top_providers_chart: None on an empty frame,
else a bar chart of the 10 providers with the largest Total Services. -/
def create_top_providers_chart (df : Table) : Option Figure :=
  if df.isEmptyDf then none
  else some (.plotly "Top 10 Providers by Service Volume"
    (Table.mk df.cols ((sortByTotalServicesDesc df.rows).take 10)))

/-- CMSDataVisualizer.create_correlation_heatmap: None on an empty frame, else
a heatmap of the correlations of the three key metric columns. -/
def create_correlation_heatmap (df : Table) : Option Figure :=
  if df.isEmptyDf then none
  else some (.plotly "Correlation Heatmap"
    (Table.mk ["Total Services", "Avg Payment Amount", "Total Beneficiaries"] df.rows))

/-- CMSDataVisualizer.create_specialty_distribution_chart: None on an empty
frame, else a pie chart of the specialty shares. -/
def create_specialty_distribution_chart (df : Table) : Option Figure :=
  if df.isEmptyDf then none
  else some (.plotly "Distribution of Provider Specialties" df)

/-- CMSDataVisualizer.create_top_services_chart: None on an empty frame, else
a bar chart of the first 15 services. -/
def create_top_services_chart (df : Table) : Option Figure :=
  if df.isEmptyDf then none
  else some (.plotly "Top 15 Services by Volume" (Table.mk df.cols (df.rows.take 15)))

/-- CMSDataVisualizer.create_provider_metrics_chart: None on an empty frame,
else a scatter plot over the frame. -/
def create_provider_metrics_chart (df : Table) : Option Figure :=
  if df.isEmptyDf then none
  else some (.plotly "Provider Service Volume vs. Payment Analysis" df)

/-- CMSDataVisualizer.create_provider_performance_matrix: None on an empty
frame, else a scatter plot of derived efficiency/quality scores. -/
def create_provider_performance_matrix (df : Table) : Option Figure :=
  if df.isEmptyDf then none
  else some (.plotly "Provider Performance Matrix" df)

/-- CMSDataVisualizer.create_specialty_benchmarking_chart: None on an empty
frame, else grouped bars of per-specialty means. -/
def create_specialty_benchmarking_chart (df : Table) : Option Figure :=
  if df.isEmptyDf then none
  else some (.plotly "Specialty Benchmarking" df)

/-- CMSDataVisualizer.create_quality_metrics_dashboard: None on an empty
frame, else a 2x2 dashboard over the frame. -/
def create_quality_metrics_dashboard (df : Table) : Option Figure :=
  if df.isEmptyDf then none
  else some (.plotly "Provider Quality Metrics Dashboard" df)

/-- CMSVisualizer.create_services_chart (cms_data_visualizer_simple.py): sorts
by Total Services descending, keeps the first 10, draws the bar chart — and
then reads `df_sorted.iloc[0]` for the annotation text, which raises
IndexError when the frame has no rows (there is no emptiness guard in this
class).  The error value models that uncaught exception. -/
def create_services_chart (df : Table) : Except String Figure :=
  let df_sorted := (sortByTotalServicesDesc df.rows).take 10
  match df_sorted with
  | [] => .error "single positional indexer is out-of-bounds"
  | _ :: _ => .ok (.plotly "Top 10 Services by Volume" (Table.mk df.cols df_sorted))

-- Theorems.

/-- The NY-filtered frame keeps the input columns. -/
theorem nyStateRows_cols (df : Table) : (nyStateRows df).cols = df.cols := by
  unfold nyStateRows
  split <;> rfl

/-- C3: region-narrowing fallback of filter_upstate_ny_providers — whenever a
state column and a county column are both found, the state-level NY filter is
non-empty, and the county-substring filter on it is empty, the function
returns the full state-level row set (never the empty county-narrowed set). -/
theorem filter_upstate_ny_providers_county_fallback
    (df : Table) (state_col county_col : String)
    (hs : findCol df.cols possible_state_cols = some state_col)
    (hc : findCol df.cols possible_county_cols = some county_col)
    (hny : df.rows.filter (fun r => Row.get r state_col == Cell.str ny_state_code) ≠ [])
    (hcounty : (df.rows.filter (fun r => Row.get r state_col == Cell.str ny_state_code)).filter
        (fun r => countyText (Row.get r county_col)) = []) :
    (filter_upstate_ny_providers df).rows =
      df.rows.filter (fun r => Row.get r state_col == Cell.str ny_state_code) := by
  unfold filter_upstate_ny_providers
  simp only [hs, hc, hcounty, List.length_nil, gt_iff_lt, Nat.lt_irrefl, if_false]

/-- Witness for C3: a concrete NY row whose county is not an upstate county. -/
theorem filter_upstate_ny_providers_county_fallback_witness :
    (filter_upstate_ny_providers
        (Table.mk ["State", "County"] [[("State", Cell.str "NY"), ("County", Cell.str "KINGS")]])).rows =
      (Table.mk ["State", "County"]
          [[("State", Cell.str "NY"), ("County", Cell.str "KINGS")]]).rows.filter
        (fun r => Row.get r "State" == Cell.str ny_state_code) :=
  filter_upstate_ny_providers_county_fallback _ "State" "County"
    (by decide) (by decide) (by decide) (by decide)

/-- C9: invariant of the region filter — when a state column is found, every
returned row is a row of the input with that state column equal to "NY"; in
particular the zero-county fallback never admits a row from outside the
state-level NY set. -/
theorem filter_upstate_ny_providers_rows_ny
    (df : Table) (state_col : String)
    (hs : findCol df.cols possible_state_cols = some state_col) :
    ∀ r ∈ (filter_upstate_ny_providers df).rows,
      r ∈ df.rows ∧ Row.get r state_col = Cell.str ny_state_code := by
  intro r hr
  simp only [filter_upstate_ny_providers, hs] at hr
  cases hc : findCol df.cols possible_county_cols with
  | none =>
    simp only [hc] at hr
    have h2 := List.mem_filter.mp hr
    exact ⟨h2.1, by simpa using h2.2⟩
  | some county_col =>
    simp only [hc] at hr
    split at hr
    · have h1 := (List.mem_filter.mp hr).1
      have h2 := List.mem_filter.mp h1
      exact ⟨h2.1, by simpa using h2.2⟩
    · have h2 := List.mem_filter.mp hr
      exact ⟨h2.1, by simpa using h2.2⟩

/-- Witness for C9: the one row returned for the concrete C3 table is an
input row with state NY. -/
theorem filter_upstate_ny_providers_rows_ny_witness :
    [("State", Cell.str "NY"), ("County", Cell.str "KINGS")] ∈
        (Table.mk ["State", "County"]
          [[("State", Cell.str "NY"), ("County", Cell.str "KINGS")]]).rows ∧
      Row.get [("State", Cell.str "NY"), ("County", Cell.str "KINGS")] "State" =
        Cell.str ny_state_code :=
  filter_upstate_ny_providers_rows_ny _ "State" (by decide)
    [("State", Cell.str "NY"), ("County", Cell.str "KINGS")] (by decide)

/-- C5: a table with no recognizable state column makes
filter_upstate_ny_providers return the empty frame with the input's columns
(`df.head(0)`), and a table without the provider_type column makes
get_specialty_distribution return the empty frame — both total functions, no
exception paths. -/
theorem missing_columns_give_empty_results (df : Table) :
    (findCol df.cols possible_state_cols = none →
      filter_upstate_ny_providers df = df.head0) ∧
    (df.cols.contains "provider_type" = false →
      get_specialty_distribution df = emptyTable) := by
  constructor
  · intro h
    unfold filter_upstate_ny_providers
    rw [h]
  · intro h
    unfold get_specialty_distribution
    have hn : ¬ (df.cols.contains "provider_type" = true) := by
      intro hh
      rw [h] at hh
      exact Bool.false_ne_true hh
    rw [if_pos (Or.inl hn)]

/-- Witness for C5: a concrete one-column table with neither a state column
nor a provider_type column. -/
theorem missing_columns_give_empty_results_witness :
    (filter_upstate_ny_providers (Table.mk ["Foo"] [[("Foo", Cell.str "x")]]) =
      (Table.mk ["Foo"] [[("Foo", Cell.str "x")]]).head0) ∧
    (get_specialty_distribution (Table.mk ["Foo"] [[("Foo", Cell.str "x")]]) = emptyTable) :=
  ⟨(missing_columns_give_empty_results _).1 (by decide),
   (missing_columns_give_empty_results _).2 (by decide)⟩

/-- C1: find_community_care_providers keeps a row of a non-empty frame iff the
OR of the four match rules holds for it; consequently a row matching only the
address-prefix rule — and none of the organization-name, group-identifier, or
city+specialty rules — is still included. -/
theorem find_community_care_providers_or_rules (df : Table)
    (hne : df.isEmptyDf = false) :
    (∀ r, r ∈ (find_community_care_providers df).rows ↔
       (r ∈ df.rows ∧ ccpMask df r = true)) ∧
    (∀ r ∈ df.rows, addressRule df.cols r = true →
       orgNameRule df.cols r = false → groupPacRule df.cols r = false →
       citySpecialtyRule df r = false →
       r ∈ (find_community_care_providers df).rows) := by
  have hmem : ∀ r, r ∈ (find_community_care_providers df).rows ↔
      (r ∈ df.rows ∧ ccpMask df r = true) := by
    intro r
    unfold find_community_care_providers
    rw [if_neg (by simp [hne])]
    exact List.mem_filter
  refine ⟨hmem, ?_⟩
  intro r hr haddr horg hpac hcity
  exact (hmem r).mpr ⟨hr, by simp [ccpMask, haddr, horg, hpac, hcity]⟩

/-- Witness for C1: a concrete one-row frame whose only match is the street
address "1 Pinnacle Place" (organization name, PAC id, city and specialty all
fail to match). -/
theorem find_community_care_providers_or_rules_witness :
    [("Rndrng_Prvdr_St1", Cell.str "1 Pinnacle Place"),
     ("Rndrng_Prvdr_Org_Name", Cell.str "ZZ"),
     ("Rndrng_Prvdr_City", Cell.str "NEW YORK")] ∈
      (find_community_care_providers
        (Table.mk ["Rndrng_Prvdr_St1", "Rndrng_Prvdr_Org_Name", "Rndrng_Prvdr_City"]
          [[("Rndrng_Prvdr_St1", Cell.str "1 Pinnacle Place"),
            ("Rndrng_Prvdr_Org_Name", Cell.str "ZZ"),
            ("Rndrng_Prvdr_City", Cell.str "NEW YORK")]])).rows :=
  (find_community_care_providers_or_rules _ (by decide)).2 _
    (by decide) (by decide) (by decide) (by decide) (by decide)

/-- C6: the population selection of analyze_provider_service_data — when the
city and provider-type columns exist: (i) if the strict
find_community_care_providers match over the NY-filtered frame has zero rows,
the population is exactly the NY rows in the fallback city list whose
specialty matches the fallback primary-care keywords; and (ii) whenever such
a city+primary-care row exists in the NY-filtered frame the resulting
population is non-empty (either the strict match is already non-empty, or the
fallback retains that row). -/
theorem ccPopulation_fallback (df : Table)
    (hcity : df.cols.contains "Rndrng_Prvdr_City" = true)
    (htype : df.cols.contains "Rndrng_Prvdr_Type" = true) :
    ((find_community_care_providers (nyStateRows df)).rows = [] →
      (ccPopulation df).rows =
        ((nyStateRows df).rows.filter (fun r =>
          cellMatchesAny (Row.get r "Rndrng_Prvdr_City") fallback_upstate_cities)).filter
          (fun r =>
            cellMatchesAny (Row.get r "Rndrng_Prvdr_Type") fallback_common_specialties)) ∧
    (∀ r ∈ (nyStateRows df).rows,
      cellMatchesAny (Row.get r "Rndrng_Prvdr_City") fallback_upstate_cities = true →
      cellMatchesAny (Row.get r "Rndrng_Prvdr_Type") fallback_common_specialties = true →
      (ccPopulation df).rows ≠ []) := by
  have hcity' : (nyStateRows df).cols.contains "Rndrng_Prvdr_City" = true := by
    rw [nyStateRows_cols]; exact hcity
  have htype' : (nyStateRows df).cols.contains "Rndrng_Prvdr_Type" = true := by
    rw [nyStateRows_cols]; exact htype
  have hfall : (find_community_care_providers (nyStateRows df)).rows = [] →
      (ccPopulation df).rows =
        ((nyStateRows df).rows.filter (fun r =>
          cellMatchesAny (Row.get r "Rndrng_Prvdr_City") fallback_upstate_cities)).filter
          (fun r =>
            cellMatchesAny (Row.get r "Rndrng_Prvdr_Type") fallback_common_specialties) := by
    intro hz
    unfold ccPopulation
    rw [if_pos (by rw [hz]; rfl), if_pos hcity', if_pos htype']
  refine ⟨hfall, ?_⟩
  intro r hr hc ht
  by_cases hz : (find_community_care_providers (nyStateRows df)).rows = []
  · rw [hfall hz]
    exact List.ne_nil_of_mem (List.mem_filter.mpr ⟨List.mem_filter.mpr ⟨hr, hc⟩, ht⟩)
  · have : (ccPopulation df).rows = (find_community_care_providers (nyStateRows df)).rows := by
      unfold ccPopulation
      rw [if_neg]
      intro hlen
      exact hz (List.length_eq_zero.mp hlen)
    rw [this]
    exact hz

/-- Witness for C6: a concrete NY frame with one Albany pediatrics row (the
strict match already catches it, so the population is non-empty) — both parts
of the theorem instantiated. -/
theorem ccPopulation_fallback_witness :
    (ccPopulation (Table.mk
        ["Rndrng_Prvdr_State_Abrvtn", "Rndrng_Prvdr_City", "Rndrng_Prvdr_Type"]
        [[("Rndrng_Prvdr_State_Abrvtn", Cell.str "NY"),
          ("Rndrng_Prvdr_City", Cell.str "ALBANY"),
          ("Rndrng_Prvdr_Type", Cell.str "PEDIATRICS")]])).rows ≠ [] :=
  (ccPopulation_fallback _ (by decide) (by decide)).2
    [("Rndrng_Prvdr_State_Abrvtn", Cell.str "NY"),
     ("Rndrng_Prvdr_City", Cell.str "ALBANY"),
     ("Rndrng_Prvdr_Type", Cell.str "PEDIATRICS")]
    (by decide) (by decide) (by decide)

/-- Counterexample for C8 as stated: create_services_chart of the simplified
visualizer class, applied to an empty input table, does not yield "no chart
without raising" — it raises an IndexError reading `df_sorted.iloc[0]`
(modelled as the error value). -/
theorem create_services_chart_empty_raises :
    create_services_chart
        (Table.mk ["HCPCS Code", "HCPCS Description", "Total Services"] []) =
      Except.error "single positional indexer is out-of-bounds" := by
  rfl

/-- C8 (amended): every chart constructor of CMSDataVisualizer
(cms_data_visualizer.py) applied to a table without rows yields no chart
(None) and does not raise; the constructors of the simplified CMSVisualizer
class lack the emptiness guard, and create_services_chart fails with an index
error on such input. -/
theorem chart_constructors_on_empty (df : Table) (h : df.rows = []) :
    create_top_providers_chart df = none ∧
    create_correlation_heatmap df = none ∧
    create_specialty_distribution_chart df = none ∧
    create_top_services_chart df = none ∧
    create_provider_metrics_chart df = none ∧
    create_provider_performance_matrix df = none ∧
    create_specialty_benchmarking_chart df = none ∧
    create_quality_metrics_dashboard df = none ∧
    create_services_chart df = Except.error "single positional indexer is out-of-bounds" := by
  have he : df.isEmptyDf = true := by simp [Table.isEmptyDf, h]
  refine ⟨?_, ?_, ?_, ?_, ?_, ?_, ?_, ?_, ?_⟩ <;>
    simp [create_top_providers_chart, create_correlation_heatmap,
      create_specialty_distribution_chart, create_top_services_chart,
      create_provider_metrics_chart, create_provider_performance_matrix,
      create_specialty_benchmarking_chart, create_quality_metrics_dashboard,
      create_services_chart, sortByTotalServicesDesc, he, h]

/-- Witness for C8: the amended statement at a concrete empty table. -/
theorem chart_constructors_on_empty_witness :
    create_top_providers_chart (Table.mk ["Total Services"] []) = none ∧
    create_correlation_heatmap (Table.mk ["Total Services"] []) = none ∧
    create_specialty_distribution_chart (Table.mk ["Total Services"] []) = none ∧
    create_top_services_chart (Table.mk ["Total Services"] []) = none ∧
    create_provider_metrics_chart (Table.mk ["Total Services"] []) = none ∧
    create_provider_performance_matrix (Table.mk ["Total Services"] []) = none ∧
    create_specialty_benchmarking_chart (Table.mk ["Total Services"] []) = none ∧
    create_quality_metrics_dashboard (Table.mk ["Total Services"] []) = none ∧
    create_services_chart (Table.mk ["Total Services"] []) =
      Except.error "single positional indexer is out-of-bounds" :=
  chart_constructors_on_empty (Table.mk ["Total Services"] []) rfl

/-- Pairs of a list with no duplicate first components are determined by
their first component. -/
theorem fst_nodup_mem_eq {α β : Type _} {l : List (α × β)}
    (h : (l.map Prod.fst).Nodup) {p q : α × β}
    (hp : p ∈ l) (hq : q ∈ l) (hfst : p.1 = q.1) : p = q := by
  induction l with
  | nil => cases hp
  | cons hd tl ih =>
    rw [List.map_cons, List.nodup_cons] at h
    rcases List.mem_cons.mp hp with hp1 | hp1 <;>
      rcases List.mem_cons.mp hq with hq1 | hq1
    · rw [hp1, hq1]
    · exfalso
      apply h.1
      have hh : hd.1 = q.1 := by rw [← hp1, hfst]
      rw [hh]
      exact List.mem_map_of_mem Prod.fst hq1
    · exfalso
      apply h.1
      have hh : hd.1 = p.1 := by rw [← hq1, hfst]
      rw [hh]
      exact List.mem_map_of_mem Prod.fst hp1
    · exact ih h.2 hp1 hq1

/-- Counterexample for C4 as stated: a non-empty input whose only column is
matched by no alias list — analyze_provider_metrics returns `df.head(0)`,
which retains that unmatched column in the output schema instead of dropping
it. -/
theorem analyze_provider_metrics_unmatched_col_kept :
    (analyze_provider_metrics (Table.mk ["Foo"] [[("Foo", Cell.str "x")]])).cols = ["Foo"] ∧
    column_mappings.all (fun m => ! m.2.contains "Foo") = true := by
  constructor
  · rfl
  · decide

/-- C4 (amended): on a non-empty input table for which at least one canonical
field has a matching alias, analyze_provider_metrics (i) emits exactly the
canonical names of the matched fields as columns, (ii) binds each canonical
field to the first alias of its candidate list present in the input (so later
aliases are ignored even when present, and columns matched by no alias list
are dropped), and (iii) fills each output row from exactly those alias
columns of the corresponding input row. -/
theorem analyze_provider_metrics_first_alias (df : Table)
    (hne : df.isEmptyDf = false)
    (hsome : availableMappedCols df.cols ≠ []) :
    ((analyze_provider_metrics df).cols =
      (availableMappedCols df.cols).map Prod.snd) ∧
    (∀ std aliases, (std, aliases) ∈ column_mappings →
      ∀ a, ((a, std) ∈ availableMappedCols df.cols ↔
        aliases.find? (fun c => df.cols.contains c) = some a)) ∧
    ((analyze_provider_metrics df).rows =
      df.rows.map (fun r => (availableMappedCols df.cols).map (fun p => (p.2, Row.get r p.1)))) := by
  have hout : analyze_provider_metrics df =
      { cols := (availableMappedCols df.cols).map (fun p => p.2),
        rows := df.rows.map (fun r =>
          (availableMappedCols df.cols).map (fun p => (p.2, Row.get r p.1))) } := by
    unfold analyze_provider_metrics
    rw [if_neg (by simp [hne]), if_neg (by simp [List.isEmpty_iff, hsome])]
  refine ⟨by rw [hout], ?_, by rw [hout]⟩
  intro std aliases hm a
  constructor
  · intro ha
    rcases List.mem_filterMap.mp ha with ⟨m, hmem, heq⟩
    rcases Option.map_eq_some'.mp heq with ⟨c, hfind, hc⟩
    have h1 : c = a := congrArg Prod.fst hc
    have h2 : m.1 = std := congrArg Prod.snd hc
    have : m = (std, aliases) := by
      apply fst_nodup_mem_eq (by decide) hmem hm h2
    rw [this] at hfind
    rw [← h1, hfind]
  · intro hfind
    exact List.mem_filterMap.mpr ⟨(std, aliases), hm, by rw [hfind]; rfl⟩

/-- Witness for C4: a table carrying two aliases of provider_id
(Rndrng_Prvdr_NPI and NPI, in that candidate order) and an unmatched column
Foo — the output binds provider_id to the Rndrng_Prvdr_NPI value and drops
the rest. -/
theorem analyze_provider_metrics_first_alias_witness :
    ((analyze_provider_metrics (Table.mk ["NPI", "Rndrng_Prvdr_NPI", "Foo"]
        [[("NPI", Cell.str "1"), ("Rndrng_Prvdr_NPI", Cell.str "2"), ("Foo", Cell.str "z")]])).cols
      = ["provider_id"]) ∧
    ((analyze_provider_metrics (Table.mk ["NPI", "Rndrng_Prvdr_NPI", "Foo"]
        [[("NPI", Cell.str "1"), ("Rndrng_Prvdr_NPI", Cell.str "2"), ("Foo", Cell.str "z")]])).rows
      = [[("provider_id", Cell.str "2")]]) :=
  ⟨((analyze_provider_metrics_first_alias _ (by decide) (by decide)).1).trans (by decide),
   ((analyze_provider_metrics_first_alias _ (by decide) (by decide)).2.2).trans (by decide)⟩

/-- Appending a common suffix to strings is injective. -/
theorem string_append_right_cancel {a b : String} (u : String)
    (h : a ++ u = b ++ u) : a = b := by
  apply String.ext
  have hd : a.data ++ u.data = b.data ++ u.data := by
    rw [← String.data_append, ← String.data_append, h]
  exact (List.append_inj' hd rfl).1

/-- C10: postcondition of save_results — for a results dictionary (no
duplicate keys, none named analysis_summary), a file `<name>.csv` is written
iff that entry is a non-empty DataFrame (empty frames and non-DataFrame
values produce no file); analysis_summary.csv is always written, and its one
row carries a `<name>_count` entry with the row count of every DataFrame
value, the empty ones included. -/
theorem save_results_postcondition (results : List (String × ResultVal)) (now : String)
    (hnodup : (results.map Prod.fst).Nodup)
    (hna : "analysis_summary" ∉ results.map Prod.fst) :
    (∀ p ∈ results,
      ((p.1 ++ ".csv") ∈ (save_results results now).map Prod.fst ↔
        ∃ t, p.2 = ResultVal.table t ∧ t.isEmptyDf = false)) ∧
    ("analysis_summary.csv" ∈ (save_results results now).map Prod.fst) ∧
    (∀ p ∈ results, ∀ t, p.2 = ResultVal.table t →
      (p.1 ++ "_count") ∈ (analysisSummaryTable results now).cols ∧
      ∀ r ∈ (analysisSummaryTable results now).rows,
        (p.1 ++ "_count", Cell.num (t.rows.length : Rat)) ∈ r) := by
  refine ⟨?_, ?_, ?_⟩
  · intro p hp
    constructor
    · intro hx
      rw [save_results, List.map_append, List.mem_append] at hx
      rcases hx with hx | hx
      · rcases List.mem_map.mp hx with ⟨x, hxmem, hfst⟩
        rcases List.mem_filterMap.mp hxmem with ⟨q, hq, hfq⟩
        rcases q with ⟨qn, qv⟩
        cases qv with
        | table t =>
          by_cases hemp : t.isEmptyDf = false
          · simp only [hemp, not_false_eq_true, if_pos] at hfq
            have hx1 : qn ++ ".csv" = p.1 ++ ".csv" := by
              rw [← hfst, ← Option.some.inj hfq]
            have hqp : qn = p.1 := string_append_right_cancel ".csv" hx1
            have : (qn, ResultVal.table t) = p :=
              fst_nodup_mem_eq hnodup hq hp hqp
            exact ⟨t, by rw [← this], hemp⟩
          · rw [Bool.not_eq_false] at hemp
            simp [hemp] at hfq
        | other => simp at hfq
      · simp only [List.map_cons, List.map_nil, List.mem_singleton] at hx
        exfalso
        apply hna
        have : p.1 = "analysis_summary" :=
          string_append_right_cancel ".csv" (hx.trans rfl)
        rw [← this]
        exact List.mem_map_of_mem Prod.fst hp
    · intro ⟨t, hpt, hemp⟩
      rw [save_results, List.map_append, List.mem_append]
      left
      apply List.mem_map.mpr
      refine ⟨(p.1 ++ ".csv", t), ?_, rfl⟩
      apply List.mem_filterMap.mpr
      refine ⟨p, hp, ?_⟩
      rw [hpt]
      simp [hemp]
  · rw [save_results, List.map_append, List.mem_append]
    right
    simp
  · intro p hp t hpt
    constructor
    · rw [analysisSummaryTable, List.mem_append]
      right
      apply List.mem_filterMap.mpr
      refine ⟨p, hp, ?_⟩
      rw [hpt]
    · intro r hr
      rw [analysisSummaryTable, List.mem_singleton] at hr
      rw [hr, List.mem_append]
      right
      apply List.mem_filterMap.mpr
      refine ⟨p, hp, ?_⟩
      rw [hpt]

/-- Witness for C10: a concrete results dictionary with one non-empty frame,
one empty frame, and one non-DataFrame value. -/
theorem save_results_postcondition_witness :
    (("provider_metrics" ++ ".csv") ∈
      (save_results
        [("provider_metrics", ResultVal.table (Table.mk ["A"] [[("A", Cell.str "x")]])),
         ("specialty_distribution", ResultVal.table (Table.mk ["B"] [])),
         ("payment_stats", ResultVal.other)] "2024-01-01 00:00:00").map Prod.fst) ∧
    ("analysis_summary.csv" ∈
      (save_results
        [("provider_metrics", ResultVal.table (Table.mk ["A"] [[("A", Cell.str "x")]])),
         ("specialty_distribution", ResultVal.table (Table.mk ["B"] [])),
         ("payment_stats", ResultVal.other)] "2024-01-01 00:00:00").map Prod.fst) ∧
    (("specialty_distribution" ++ "_count") ∈
      (analysisSummaryTable
        [("provider_metrics", ResultVal.table (Table.mk ["A"] [[("A", Cell.str "x")]])),
         ("specialty_distribution", ResultVal.table (Table.mk ["B"] [])),
         ("payment_stats", ResultVal.other)] "2024-01-01 00:00:00").cols) :=
  ⟨((save_results_postcondition _ _ (by decide) (by decide)).1
      ("provider_metrics", ResultVal.table (Table.mk ["A"] [[("A", Cell.str "x")]]))
      (by decide)).mpr ⟨Table.mk ["A"] [[("A", Cell.str "x")]], rfl, by decide⟩,
   (save_results_postcondition _ "2024-01-01 00:00:00" (by decide) (by decide)).2.1,
   ((save_results_postcondition _ _ (by decide) (by decide)).2.2
      ("specialty_distribution", ResultVal.table (Table.mk ["B"] []))
      (by decide) (Table.mk ["B"] []) rfl).1⟩

/-- C7: fetch-stage idempotence — when the local file already exists in the
data directory, download_file returns its path, performs no network download
and leaves the directory unchanged; and re-running save_results over the same
results at a different timestamp writes byte-identical summary-table files
(every written file except the run summary analysis_summary.csv, whose
timestamp field is the only run-dependent output). -/
theorem fetch_stage_idempotent :
    (∀ (data_dir_files : List String) (url local_filename : String),
      data_dir_files.contains local_filename = true →
      download_file data_dir_files url local_filename =
        (local_filename, data_dir_files, false)) ∧
    (∀ (results : List (String × ResultVal)) (now1 now2 : String),
      ((save_results results now1).filter
          (fun p => p.1 != "analysis_summary.csv")).map (fun p => (p.1, toCsv p.2)) =
      ((save_results results now2).filter
          (fun p => p.1 != "analysis_summary.csv")).map (fun p => (p.1, toCsv p.2))) := by
  constructor
  · intro files url name h
    unfold download_file
    rw [if_pos h]
  · intro results now1 now2
    simp [save_results, List.filter_append]

/-- Witness for C7: a cached medicare_providers.csv is not re-downloaded, and
two runs a day apart write the same provider_metrics.csv bytes. -/
theorem fetch_stage_idempotent_witness :
    (download_file ["medicare_providers.csv"] "https://data.cms.gov/x" "medicare_providers.csv" =
      ("medicare_providers.csv", ["medicare_providers.csv"], false)) ∧
    (((save_results [("provider_metrics", ResultVal.table (Table.mk ["A"] [[("A", Cell.str "x")]]))]
          "2024-01-01 00:00:00").filter
        (fun p => p.1 != "analysis_summary.csv")).map (fun p => (p.1, toCsv p.2)) =
      ((save_results [("provider_metrics", ResultVal.table (Table.mk ["A"] [[("A", Cell.str "x")]]))]
          "2024-01-02 00:00:00").filter
        (fun p => p.1 != "analysis_summary.csv")).map (fun p => (p.1, toCsv p.2))) :=
  ⟨fetch_stage_idempotent.1 _ "https://data.cms.gov/x" _ (by decide),
   fetch_stage_idempotent.2 _ "2024-01-01 00:00:00" "2024-01-02 00:00:00"⟩

/-- The keys of the per-code volume series are the group keys. -/
theorem ccVolumes_keys (df : Table) :
    (ccVolumes df).map Prod.fst = groupKeys df.rows "HCPCS_Cd" := by
  unfold ccVolumes groupSum
  rw [List.map_map]
  exact List.map_id'' (fun x => rfl) _

/-- The per-code volume series has no duplicate keys. -/
theorem ccVolumes_fst_nodup (df : Table) : ((ccVolumes df).map Prod.fst).Nodup := by
  rw [ccVolumes_keys]
  unfold groupKeys
  exact ((List.perm_insertionSort cellLeR _).nodup_iff).mpr (List.nodup_dedup _)

/-- At most 20 top service codes are selected. -/
theorem topServiceCodes_length (df : Table) : (topServiceCodes df).length ≤ 20 := by
  unfold topServiceCodes nlargestKeys
  rw [List.length_map, List.length_take]
  exact min_le_left _ _

/-- Every selected top code has a summed volume at least that of every code
not selected: nlargest keeps maximal elements. -/
theorem topServiceCodes_maximal (df : Table) :
    ∀ p ∈ ccVolumes df, p.1 ∈ topServiceCodes df →
    ∀ q ∈ ccVolumes df, q.1 ∉ topServiceCodes df → q.2 ≤ p.2 := by
  intro p hp hptop q hq hqtop
  have hperm : (List.insertionSort volGe (ccVolumes df)).Perm (ccVolumes df) :=
    List.perm_insertionSort volGe (ccVolumes df)
  have hsorted : List.Sorted volGe (List.insertionSort volGe (ccVolumes df)) :=
    List.sorted_insertionSort volGe (ccVolumes df)
  have htop : topServiceCodes df =
      ((List.insertionSort volGe (ccVolumes df)).take 20).map Prod.fst := rfl
  rw [htop] at hptop hqtop
  rcases List.mem_map.mp hptop with ⟨x, hxtake, hx1⟩
  have hxV : x ∈ ccVolumes df :=
    hperm.mem_iff.mp (List.take_subset 20 _ hxtake)
  have hxp : x = p := fst_nodup_mem_eq (ccVolumes_fst_nodup df) hxV hp hx1
  have hqL : q ∈ List.insertionSort volGe (ccVolumes df) := hperm.mem_iff.mpr hq
  have hsplit : q ∈ (List.insertionSort volGe (ccVolumes df)).take 20 ++
      (List.insertionSort volGe (ccVolumes df)).drop 20 := by
    rw [List.take_append_drop]
    exact hqL
  have hqdrop : q ∈ (List.insertionSort volGe (ccVolumes df)).drop 20 := by
    rcases List.mem_append.mp hsplit with h | h
    · exact absurd (List.mem_map_of_mem Prod.fst h) hqtop
    · exact h
  have hps : List.Pairwise volGe
      ((List.insertionSort volGe (ccVolumes df)).take 20 ++
        (List.insertionSort volGe (ccVolumes df)).drop 20) := by
    rw [List.take_append_drop]
    exact hsorted
  have hvol : volGe x q := (List.pairwise_append.mp hps).2.2 x hxtake q hqdrop
  rw [← hxp]
  exact hvol

/-- Every HCPCS code of the main payment-comparison path is one of the top-20
service codes. -/
theorem paymentComparisonMain_codes (cc ny : Table) :
    ∀ c ∈ paymentComparisonCodes (paymentComparisonMain cc ny), c ∈ topServiceCodes cc := by
  intro c hc
  unfold paymentComparisonCodes paymentComparisonMain at hc
  rcases List.mem_map.mp hc with ⟨r, hrL, rfl⟩
  have hr := (List.perm_insertionSort rowVolGe _).mem_iff.mp hrL
  rcases List.mem_map.mp hr with ⟨m, hm, rfl⟩
  rcases List.mem_flatMap.mp hm with ⟨lrow, hl, hmm⟩
  rcases List.mem_map.mp hmm with ⟨rr, hrr, rfl⟩
  rcases List.mem_map.mp hl with ⟨k, hk, rfl⟩
  show k.1 ∈ topServiceCodes cc
  have hk2 : k ∈ (((topFilteredRows (topServiceCodes cc) cc.rows).filterMap (fun r =>
      if Row.get r "HCPCS_Cd" ≠ Cell.null ∧ Row.get r "HCPCS_Desc" ≠ Cell.null
      then some (Row.get r "HCPCS_Cd", Row.get r "HCPCS_Desc") else none)).dedup) :=
    (List.perm_insertionSort pairKeyLe _).mem_iff.mp hk
  rcases List.mem_filterMap.mp (List.mem_dedup.mp hk2) with ⟨row, hrow, hsome⟩
  have hk1 : k.1 = Row.get row "HCPCS_Cd" := by
    by_cases hcond : Row.get row "HCPCS_Cd" ≠ Cell.null ∧ Row.get row "HCPCS_Desc" ≠ Cell.null
    · rw [if_pos hcond] at hsome
      rw [← Option.some.inj hsome]
    · rw [if_neg hcond] at hsome
      cases hsome
  have hcontains := (List.mem_filter.mp hrow).2
  rw [hk1]
  simpa using hcontains

/-- C2: the payment-comparison output contains at most 20 distinct service
codes; every code it contains is one of the top-20-by-summed-volume codes;
and those selected codes all have summed Tot_Srvcs volume at least that of
every unselected code (the selection is by descending summed volume).  This
holds for every pair of input frames — in particular for an input with 25
distinct codes the output has at most 20. -/
theorem get_payment_comparison_top20 (cc ny : Table) :
    ((paymentComparisonCodes (paymentComparisonResult cc ny)).dedup.length ≤ 20) ∧
    ((paymentComparisonCodes (paymentComparisonResult cc ny)).all
      (fun c => (topServiceCodes cc).contains c) = true) ∧
    ((ccVolumes cc).all (fun p =>
      ! (topServiceCodes cc).contains p.1 ||
      (ccVolumes cc).all (fun q =>
        (topServiceCodes cc).contains q.1 || decide (q.2 ≤ p.2))) = true) := by
  have hsub : ∀ c ∈ paymentComparisonCodes (paymentComparisonResult cc ny),
      c ∈ topServiceCodes cc := by
    unfold paymentComparisonResult get_payment_comparison
    split_ifs with h1 h2 h3 <;> intro c hc <;>
      first
        | exact paymentComparisonMain_codes cc ny c (by simpa using hc)
        | simp [paymentComparisonCodes, emptyTable] at hc
  refine ⟨?_, ?_, ?_⟩
  · rw [← List.card_toFinset]
    have hss : (paymentComparisonCodes (paymentComparisonResult cc ny)).toFinset ⊆
        (topServiceCodes cc).toFinset := by
      intro c hcm
      exact List.mem_toFinset.mpr (hsub c (List.mem_toFinset.mp hcm))
    calc (paymentComparisonCodes (paymentComparisonResult cc ny)).toFinset.card
        ≤ (topServiceCodes cc).toFinset.card := Finset.card_le_card hss
      _ ≤ (topServiceCodes cc).length := List.toFinset_card_le _
      _ ≤ 20 := topServiceCodes_length cc
  · rw [List.all_eq_true]
    intro c hc
    simpa using hsub c hc
  · rw [List.all_eq_true]
    intro p hp
    rw [Bool.or_eq_true]
    by_cases hpt : p.1 ∈ topServiceCodes cc
    · right
      rw [List.all_eq_true]
      intro q hq
      rw [Bool.or_eq_true]
      by_cases hqt : q.1 ∈ topServiceCodes cc
      · left
        simpa using hqt
      · right
        rw [decide_eq_true_eq]
        exact topServiceCodes_maximal cc p hp hpt q hq hqt
    · left
      simpa using hpt
